import Mathlib

/-!
Verification of the QMK user keymap `keymap.c` / `config.h` (ZSA Voyager,
Oryx-generated layout with user customizations).

The file shallowly embeds the user-level code: the keymap, combo, and LED
tables; the tap-dance step classifier and callbacks; the RGB matrix indicator
hook; and the achordion streak heuristics.  Machine integers (`uint8_t`,
`uint16_t`) are modelled as `Nat`; the embedded operations only compare,
mask and shift them, so no overflow arises.  Framework-owned mutable state
touched by the user code (the registered-key report, per-dance bookkeeping,
emitted LED commands) is modelled as an explicit state record.
-/

namespace Voyager

/-! ### Basic keycode constants (QMK `keycodes.h` HID usage ids) -/

def KC_TRANSPARENT : Nat := 0x0001
def KC_A : Nat := 0x04
def KC_B : Nat := 0x05
def KC_C : Nat := 0x06
def KC_D : Nat := 0x07
def KC_E : Nat := 0x08
def KC_F : Nat := 0x09
def KC_G : Nat := 0x0A
def KC_H : Nat := 0x0B
def KC_I : Nat := 0x0C
def KC_J : Nat := 0x0D
def KC_K : Nat := 0x0E
def KC_L : Nat := 0x0F
def KC_M : Nat := 0x10
def KC_N : Nat := 0x11
def KC_O : Nat := 0x12
def KC_P : Nat := 0x13
def KC_Q : Nat := 0x14
def KC_R : Nat := 0x15
def KC_S : Nat := 0x16
def KC_T : Nat := 0x17
def KC_U : Nat := 0x18
def KC_V : Nat := 0x19
def KC_W : Nat := 0x1A
def KC_X : Nat := 0x1B
def KC_Y : Nat := 0x1C
def KC_Z : Nat := 0x1D
def KC_1 : Nat := 0x1E
def KC_2 : Nat := 0x1F
def KC_3 : Nat := 0x20
def KC_4 : Nat := 0x21
def KC_5 : Nat := 0x22
def KC_6 : Nat := 0x23
def KC_7 : Nat := 0x24
def KC_8 : Nat := 0x25
def KC_9 : Nat := 0x26
def KC_0 : Nat := 0x27
def KC_ENTER : Nat := 0x28
def KC_ESCAPE : Nat := 0x29
def KC_BSPC : Nat := 0x2A
def KC_TAB : Nat := 0x2B
def KC_SPACE : Nat := 0x2C
def KC_MINUS : Nat := 0x2D
def KC_EQUAL : Nat := 0x2E
def KC_LBRC : Nat := 0x2F
def KC_RBRC : Nat := 0x30
def KC_BSLS : Nat := 0x31
def KC_SCLN : Nat := 0x33
def KC_QUOTE : Nat := 0x34
def KC_GRAVE : Nat := 0x35
def KC_COMMA : Nat := 0x36
def KC_DOT : Nat := 0x37
def KC_SLASH : Nat := 0x38
def KC_RIGHT : Nat := 0x4F
def KC_LEFT : Nat := 0x50
def KC_DOWN : Nat := 0x51
def KC_UP : Nat := 0x52
def KC_AUDIO_MUTE : Nat := 0xA8
def KC_AUDIO_VOL_UP : Nat := 0xA9
def KC_AUDIO_VOL_DOWN : Nat := 0xAA
def KC_MEDIA_NEXT_TRACK : Nat := 0xAB
def KC_MEDIA_PLAY_PAUSE : Nat := 0xAE

/-- QMK `LSFT(kc)`: the shifted variant of a basic keycode (`QK_LSFT` bit). -/
def LSFT (kc : Nat) : Nat := 0x0200 ||| kc

def KC_EXLM : Nat := LSFT KC_1
def KC_AT : Nat := LSFT KC_2
def KC_HASH : Nat := LSFT KC_3
def KC_DLR : Nat := LSFT KC_4
def KC_PERC : Nat := LSFT KC_5
def KC_CIRC : Nat := LSFT KC_6
def KC_AMPR : Nat := LSFT KC_7
def KC_ASTR : Nat := LSFT KC_8
def KC_LPRN : Nat := LSFT KC_9
def KC_RPRN : Nat := LSFT KC_0
def KC_UNDS : Nat := LSFT KC_MINUS
def KC_PLUS : Nat := LSFT KC_EQUAL
def KC_LCBR : Nat := LSFT KC_LBRC
def KC_RCBR : Nat := LSFT KC_RBRC
def KC_PIPE : Nat := LSFT KC_BSLS
def KC_DQUO : Nat := LSFT KC_QUOTE
def KC_TILD : Nat := LSFT KC_GRAVE
def KC_QUES : Nat := LSFT KC_SLASH

/-! ### Modifier constants (QMK `modifiers.h`)

The 5-bit packed modifier encoding used inside mod-tap keycodes: bits 0-3 are
Ctrl/Shift/Alt/GUI, bit 4 selects the right-hand side. -/

def MOD_LCTL : Nat := 0x01
def MOD_LSFT : Nat := 0x02
def MOD_LALT : Nat := 0x04
def MOD_LGUI : Nat := 0x08
def MOD_RCTL : Nat := 0x11
def MOD_RSFT : Nat := 0x12
def MOD_RALT : Nat := 0x14
def MOD_RGUI : Nat := 0x18
def MOD_HYPR : Nat := 0x0F

/-- Real (8-bit) modifier bit for left Alt, as returned by `get_mods`. -/
def MOD_BIT_LALT : Nat := 0x04

/-- Mask of both Ctrl and both GUI bits in the real 8-bit modifier byte. -/
def MOD_MASK_CG : Nat := 0x99

/-! ### Keycode ranges (QMK `quantum_keycodes.h`) -/

def QK_MOD_TAP : Nat := 0x2000
def QK_MOD_TAP_MAX : Nat := 0x3FFF
def QK_LAYER_TAP : Nat := 0x4000
def QK_LAYER_TAP_MAX : Nat := 0x4FFF

def IS_QK_MOD_TAP (kc : Nat) : Bool := QK_MOD_TAP ≤ kc && kc ≤ QK_MOD_TAP_MAX
def IS_QK_LAYER_TAP (kc : Nat) : Bool := QK_LAYER_TAP ≤ kc && kc ≤ QK_LAYER_TAP_MAX
def QK_MOD_TAP_GET_MODS (kc : Nat) : Nat := (kc >>> 8) &&& 0x1F
def QK_MOD_TAP_GET_TAP_KEYCODE (kc : Nat) : Nat := kc &&& 0xFF
def QK_LAYER_TAP_GET_TAP_KEYCODE (kc : Nat) : Nat := kc &&& 0xFF

/-- QMK `mod_config` under the default magic configuration: with every
swap-modifier setting off (the firmware default, and nothing in this keymap
changes it), `mod_config` returns its argument unchanged. -/
def mod_config (m : Nat) : Nat := m

/-! ### Keymap entries

The keymap table is written with QMK macros, so its entries are embedded as a
small syntax of keycode forms: plain 16-bit keycodes, mod-taps `MT(mod, kc)`,
layer-taps `LT(layer, kc)`, tap-dances `TD(n)`, transparency, and the named
special keycodes appearing in the table. -/

inductive Keycode where
  | KC (n : Nat)
  | MT (mod kc : Nat)
  | LT (layer kc : Nat)
  | TD (n : Nat)
  | TRNS
  | TOGGLE_LAYER_COLOR
  | RGB_MODE_FORWARD
  | RGB_VAI
  | RGB_VAD
  | RGB_TOG
  | QK_BOOT
  deriving DecidableEq, Repr

/-- QMK `ALL_T(kc)`: mod-tap with all four left modifiers (Hyper). -/
def ALL_T (kc : Nat) : Keycode := .MT MOD_HYPR kc

/-! ### The keymap table (`keymaps`, three layers of 52 positions each) -/

def layer0 : List Keycode :=
  [
   .KC KC_EQUAL, .KC KC_1, .KC KC_2, .KC KC_3, .KC KC_4, .KC KC_5,
   .KC KC_6, .KC KC_7, .KC KC_8, .KC KC_9, .KC KC_0, .KC KC_MINUS,
   .KC KC_TAB, .KC KC_Q, .KC KC_W, .KC KC_E, .KC KC_R, .KC KC_T,
   .KC KC_Y, .KC KC_U, .KC KC_I, .KC KC_O, .KC KC_P, .KC KC_BSLS,
   .TRNS, .MT MOD_LCTL KC_A, .MT MOD_LALT KC_S, .MT MOD_LGUI KC_D, .MT MOD_LSFT KC_F, .KC KC_G,
   .KC KC_H, .MT MOD_RSFT KC_J, .MT MOD_RGUI KC_K, .MT MOD_RALT KC_L, .MT MOD_RCTL KC_SCLN, .KC KC_QUOTE,
   .TRNS, .KC KC_Z, .KC KC_X, .KC KC_C, ALL_T KC_V, .KC KC_B,
   .KC KC_N, ALL_T KC_M, .KC KC_COMMA, .KC KC_DOT, .KC KC_SLASH, .KC KC_GRAVE,
   .LT 1 KC_ESCAPE, .LT 2 KC_SPACE, .KC KC_ENTER, .KC KC_BSPC
  ]

def layer1 : List Keycode :=
  [
   .TRNS, .TOGGLE_LAYER_COLOR, .RGB_MODE_FORWARD, .RGB_VAI, .RGB_VAD, .RGB_TOG,
   .KC KC_AUDIO_MUTE, .KC KC_AUDIO_VOL_DOWN, .KC KC_AUDIO_VOL_UP, .KC KC_MEDIA_PLAY_PAUSE, .KC KC_MEDIA_NEXT_TRACK, .QK_BOOT,
   .TRNS, .KC KC_EXLM, .KC KC_AT, .KC KC_HASH, .KC KC_AMPR, .KC KC_UNDS,
   .KC KC_LBRC, .KC KC_RBRC, .KC KC_LPRN, .KC KC_RPRN, .TD 0, .TRNS,
   .TRNS, .TRNS, .TRNS, .TRNS, .TRNS, .TRNS,
   .KC KC_LEFT, .KC KC_DOWN, .KC KC_UP, .KC KC_RIGHT, .TD 1, .TRNS,
   .TRNS, .TRNS, .TRNS, .TRNS, .TRNS, .TRNS,
   .KC KC_CIRC, .KC KC_LCBR, .KC KC_RCBR, .KC KC_DLR, .TD 2, .TRNS,
   .TRNS, .TRNS, .TRNS, .TRNS
  ]

def layer2 : List Keycode :=
  [
   .TRNS, .TRNS, .TRNS, .TRNS, .TRNS, .TRNS,
   .TRNS, .TRNS, .TRNS, .TRNS, .TRNS, .TRNS,
   .TRNS, .KC KC_EXLM, .KC KC_AT, .KC KC_HASH, .KC KC_AMPR, .KC KC_UNDS,
   .KC KC_EQUAL, .KC KC_7, .KC KC_8, .KC KC_9, .KC KC_PERC, .TRNS,
   .TRNS, .TRNS, .TRNS, .TRNS, .TRNS, .TRNS,
   .KC KC_PLUS, .KC KC_4, .KC KC_5, .KC KC_6, .KC KC_ASTR, .TRNS,
   .TRNS, .TRNS, .TRNS, .TRNS, .TRNS, .TRNS,
   .KC KC_MINUS, .KC KC_1, .KC KC_2, .KC KC_3, .TRNS, .TRNS,
   .TRNS, .TRNS, .KC KC_0, .KC KC_DOT
  ]

/-- The `keymaps` array: designated initializers 0, 1, 2. -/
def keymaps : List (List Keycode) := [layer0, layer1, layer2]

/-! ### Combo table (`combo0`, `key_combos`; `COMBO_COUNT` from config.h) -/

def COMBO_COUNT : Nat := 1

/-- QMK combo array terminator. -/
def COMBO_END : Nat := 0

/-- The C array `combo0`, terminator included. -/
def combo0 : List Nat := [KC_Q, KC_W, COMBO_END]

/-- A combo entry: the key array it points at and the keycode it emits. -/
structure combo_t where
  keys : List Nat
  keycode : Nat
  deriving DecidableEq, Repr

def key_combos : List combo_t := [⟨combo0, KC_TAB⟩]

/-! ### LED map (`ledmap`): HSV triples per layer and LED.

Rows 1 and 2 are the designated initializers in the source; row 0 exists in
the C array (its size is the largest index plus one) and is implicitly
zero-initialized. -/

def RGB_MATRIX_LED_COUNT : Nat := 52

def ledmap_row1 : List (Nat × Nat × Nat) :=
  [(0, 0, 0), (36, 249, 255), (36, 249, 255), (36, 249, 255), (36, 249, 255), (36, 249, 255), (0, 0, 0), (0, 168, 171), (0, 168, 171), (0, 168, 171), (0, 168, 171), (0, 168, 171), (0, 0, 0), (0, 0, 0), (0, 0, 0), (0, 0, 0), (0, 0, 0), (0, 0, 0), (0, 0, 0), (0, 0, 0), (0, 0, 0), (0, 0, 0), (0, 0, 0), (0, 0, 0), (0, 0, 0), (0, 0, 0), (36, 249, 255), (36, 249, 255), (36, 249, 255), (36, 249, 255), (36, 249, 255), (0, 0, 255), (139, 218, 194), (139, 218, 194), (139, 218, 194), (139, 218, 194), (36, 249, 255), (0, 0, 0), (0, 0, 255), (0, 0, 255), (0, 0, 255), (0, 0, 255), (36, 249, 255), (0, 0, 0), (0, 0, 255), (139, 218, 194), (139, 218, 194), (0, 0, 255), (36, 249, 255), (0, 0, 0), (0, 0, 0), (0, 0, 0)]

def ledmap_row2 : List (Nat × Nat × Nat) :=
  [(0, 0, 0), (0, 0, 0), (0, 0, 0), (0, 0, 0), (0, 0, 0), (0, 0, 0), (0, 0, 0), (0, 168, 171), (0, 168, 171), (0, 168, 171), (0, 168, 171), (0, 168, 171), (0, 0, 0), (0, 0, 0), (0, 0, 0), (0, 0, 0), (0, 0, 0), (0, 0, 0), (0, 0, 0), (0, 0, 0), (0, 0, 0), (0, 0, 0), (0, 0, 0), (0, 0, 0), (0, 0, 0), (0, 0, 0), (0, 0, 0), (0, 0, 0), (0, 0, 0), (0, 0, 0), (0, 0, 0), (0, 0, 0), (246, 227, 194), (212, 227, 194), (212, 227, 194), (212, 227, 194), (246, 227, 194), (0, 0, 0), (246, 227, 194), (212, 227, 194), (212, 227, 194), (212, 227, 194), (246, 227, 194), (0, 0, 0), (246, 227, 194), (212, 227, 194), (212, 227, 194), (212, 227, 194), (246, 227, 194), (0, 0, 0), (212, 227, 194), (246, 227, 194)]

def ledmap_row0 : List (Nat × Nat × Nat) := List.replicate RGB_MATRIX_LED_COUNT (0, 0, 0)

def ledmap : List (List (Nat × Nat × Nat)) := [ledmap_row0, ledmap_row1, ledmap_row2]

/-- Read entry `[layer][i]` of an HSV table as the loop in `set_layer_color`
does. -/
def lm_at (lm : List (List (Nat × Nat × Nat))) (layer i : Nat) : Nat × Nat × Nat :=
  (lm.getD layer []).getD i (0, 0, 0)

/-- Read `ledmap[layer][i]`. -/
def ledmap_at (layer i : Nat) : Nat × Nat × Nat := lm_at ledmap layer i

/-! ### Tap dance step classification (`dance_step` and the step enum) -/

/-- The framework-supplied tap-dance state relevant to this keymap:
`count`, `interrupted`, `pressed` fields of QMK `tap_dance_state_t`. -/
structure tap_dance_state_t where
  count : Nat
  interrupted : Bool
  pressed : Bool
  deriving DecidableEq, Repr

def SINGLE_TAP : Nat := 1
def SINGLE_HOLD : Nat := 2
def DOUBLE_TAP : Nat := 3
def DOUBLE_HOLD : Nat := 4
def DOUBLE_SINGLE_TAP : Nat := 5
def MORE_TAPS : Nat := 6

def dance_step (state : tap_dance_state_t) : Nat :=
  if state.count = 1 then
    if state.interrupted || !state.pressed then SINGLE_TAP else SINGLE_HOLD
  else if state.count = 2 then
    if state.interrupted then DOUBLE_SINGLE_TAP
    else if state.pressed then DOUBLE_HOLD
    else DOUBLE_TAP
  else MORE_TAPS

/-- Per-dance bookkeeping struct `tap` from the source. -/
structure tap where
  is_press_action : Bool
  step : Nat
  deriving DecidableEq, Repr

/-! ### Host-side key registration

`register_code16` adds a 16-bit keycode to the keyboard report; the report is
a set (QMK `add_key_to_report` is a no-op when the key is already down).
`unregister_code16` removes it; `tap_code16` registers then unregisters. -/

def register_code16 (r : List Nat) (kc : Nat) : List Nat :=
  if kc ∈ r then r else r ++ [kc]

def unregister_code16 (r : List Nat) (kc : Nat) : List Nat :=
  r.filter (fun x => x ≠ kc)

def tap_code16 (r : List Nat) (kc : Nat) : List Nat :=
  unregister_code16 (register_code16 r kc) kc

/-! ### Emitted LED commands -/

inductive LedCmd where
  | set (i r g b : Nat)
  | setAll (r g b : Nat)
  deriving DecidableEq, Repr

/-! ### The mutable state the user code touches

The four lookup tables are part of the state so that write/frame properties
can be stated about them; `A` is the (framework-owned) achordion state, which
this keymap only passes through to the achordion library calls. -/

structure SysState (A : Type) where
  keymaps : List (List Keycode)
  ledmap : List (List (Nat × Nat × Nat))
  combo0 : List Nat
  key_combos : List combo_t
  dance_state : Fin 3 → tap
  registered : List Nat
  led_cmds : List LedCmd
  rgblight_mode_val : Option Nat
  ach : A

/-! ### Tap dance callbacks

Each C callback only updates `dance_state` and the registered-key report; the
report update is factored into a pure helper on the step value so the state
update is a single record update, exactly mirroring the C switch. -/

def on_dance_0_reg (count : Nat) (r : List Nat) : List Nat :=
  let r := if count = 3 then tap_code16 (tap_code16 (tap_code16 r KC_BSLS) KC_BSLS) KC_BSLS else r
  if count > 3 then tap_code16 r KC_BSLS else r

def dance_0_finished_reg (step : Nat) (r : List Nat) : List Nat :=
  if step = SINGLE_TAP then register_code16 r KC_BSLS
  else if step = DOUBLE_TAP then register_code16 (register_code16 r KC_BSLS) KC_BSLS
  else if step = DOUBLE_HOLD then register_code16 r KC_PIPE
  else if step = DOUBLE_SINGLE_TAP then register_code16 (tap_code16 r KC_BSLS) KC_BSLS
  else r

def dance_0_reset_reg (step : Nat) (r : List Nat) : List Nat :=
  if step = SINGLE_TAP then unregister_code16 r KC_BSLS
  else if step = DOUBLE_TAP then unregister_code16 r KC_BSLS
  else if step = DOUBLE_HOLD then unregister_code16 r KC_PIPE
  else if step = DOUBLE_SINGLE_TAP then unregister_code16 r KC_BSLS
  else r

def on_dance_0 {A : Type} (state : tap_dance_state_t) (s : SysState A) : SysState A :=
  { s with registered := on_dance_0_reg state.count s.registered }

def dance_0_finished {A : Type} (state : tap_dance_state_t) (s : SysState A) : SysState A :=
  let step := dance_step state
  { s with
    dance_state := Function.update s.dance_state 0 { s.dance_state 0 with step := step },
    registered := dance_0_finished_reg step s.registered }

def dance_0_reset {A : Type} (_state : tap_dance_state_t) (s : SysState A) : SysState A :=
  let step := (s.dance_state 0).step
  { s with
    registered := dance_0_reset_reg step s.registered,
    dance_state := Function.update s.dance_state 0 { s.dance_state 0 with step := 0 } }

def on_dance_1_reg (count : Nat) (r : List Nat) : List Nat :=
  let r := if count = 3 then tap_code16 (tap_code16 (tap_code16 r KC_QUOTE) KC_QUOTE) KC_QUOTE else r
  if count > 3 then tap_code16 r KC_QUOTE else r

def dance_1_finished_reg (step : Nat) (r : List Nat) : List Nat :=
  if step = SINGLE_TAP then register_code16 r KC_QUOTE
  else if step = DOUBLE_TAP then register_code16 (register_code16 r KC_QUOTE) KC_QUOTE
  else if step = DOUBLE_HOLD then register_code16 r KC_DQUO
  else if step = DOUBLE_SINGLE_TAP then register_code16 (tap_code16 r KC_QUOTE) KC_QUOTE
  else r

def dance_1_reset_reg (step : Nat) (r : List Nat) : List Nat :=
  if step = SINGLE_TAP then unregister_code16 r KC_QUOTE
  else if step = DOUBLE_TAP then unregister_code16 r KC_QUOTE
  else if step = DOUBLE_HOLD then unregister_code16 r KC_DQUO
  else if step = DOUBLE_SINGLE_TAP then unregister_code16 r KC_QUOTE
  else r

def on_dance_1 {A : Type} (state : tap_dance_state_t) (s : SysState A) : SysState A :=
  { s with registered := on_dance_1_reg state.count s.registered }

def dance_1_finished {A : Type} (state : tap_dance_state_t) (s : SysState A) : SysState A :=
  let step := dance_step state
  { s with
    dance_state := Function.update s.dance_state 1 { s.dance_state 1 with step := step },
    registered := dance_1_finished_reg step s.registered }

def dance_1_reset {A : Type} (_state : tap_dance_state_t) (s : SysState A) : SysState A :=
  let step := (s.dance_state 1).step
  { s with
    registered := dance_1_reset_reg step s.registered,
    dance_state := Function.update s.dance_state 1 { s.dance_state 1 with step := 0 } }

def on_dance_2_reg (count : Nat) (r : List Nat) : List Nat :=
  let r := if count = 3 then tap_code16 (tap_code16 (tap_code16 r KC_GRAVE) KC_GRAVE) KC_GRAVE else r
  if count > 3 then tap_code16 r KC_GRAVE else r

def dance_2_finished_reg (step : Nat) (r : List Nat) : List Nat :=
  if step = SINGLE_TAP then register_code16 r KC_GRAVE
  else if step = DOUBLE_TAP then register_code16 (register_code16 r KC_GRAVE) KC_GRAVE
  else if step = DOUBLE_HOLD then register_code16 r KC_TILD
  else if step = DOUBLE_SINGLE_TAP then register_code16 (tap_code16 r KC_GRAVE) KC_GRAVE
  else r

def dance_2_reset_reg (step : Nat) (r : List Nat) : List Nat :=
  if step = SINGLE_TAP then unregister_code16 r KC_GRAVE
  else if step = DOUBLE_TAP then unregister_code16 r KC_GRAVE
  else if step = DOUBLE_HOLD then unregister_code16 r KC_TILD
  else if step = DOUBLE_SINGLE_TAP then unregister_code16 r KC_GRAVE
  else r

def on_dance_2 {A : Type} (state : tap_dance_state_t) (s : SysState A) : SysState A :=
  { s with registered := on_dance_2_reg state.count s.registered }

def dance_2_finished {A : Type} (state : tap_dance_state_t) (s : SysState A) : SysState A :=
  let step := dance_step state
  { s with
    dance_state := Function.update s.dance_state 2 { s.dance_state 2 with step := step },
    registered := dance_2_finished_reg step s.registered }

def dance_2_reset {A : Type} (_state : tap_dance_state_t) (s : SysState A) : SysState A :=
  let step := (s.dance_state 2).step
  { s with
    registered := dance_2_reset_reg step s.registered,
    dance_state := Function.update s.dance_state 2 { s.dance_state 2 with step := 0 } }

/-- `ACTION_TAP_DANCE_FN_ADVANCED`: the callback triplet a tap dance entry
registers. -/
structure tap_dance_action_t (A : Type) where
  on_each_tap : tap_dance_state_t → SysState A → SysState A
  on_dance_finished : tap_dance_state_t → SysState A → SysState A
  on_reset : tap_dance_state_t → SysState A → SysState A

def tap_dance_actions (A : Type) : List (tap_dance_action_t A) :=
  [⟨on_dance_0, dance_0_finished, dance_0_reset⟩,
   ⟨on_dance_1, dance_1_finished, dance_1_reset⟩,
   ⟨on_dance_2, dance_2_finished, dance_2_reset⟩]

/-! ### RGB matrix indicator hook

`set_layer_color` loops over every LED, reads the HSV triple from `ledmap`,
emits black for an all-zero triple and otherwise the HSV-to-RGB conversion
scaled by the global matrix brightness.  The conversion `hsv_to_rgb` and the
float scaling `(uint8_t)(v / 255.0 * channel)` are framework-owned numerics;
they are abstracted as parameters `h2r` (HSV triple to RGB triple) and `sc`
(brightness and channel to scaled channel), which the claims never need to
evaluate. -/

def set_layer_color (h2r : Nat → Nat → Nat → Nat × Nat × Nat) (sc : Nat → Nat → Nat)
    (lm : List (List (Nat × Nat × Nat))) (v : Nat) (layer : Nat) : List LedCmd :=
  (List.range RGB_MATRIX_LED_COUNT).map (fun i =>
    let hsv := lm_at lm layer i
    if hsv.1 = 0 ∧ hsv.2.1 = 0 ∧ hsv.2.2 = 0 then
      LedCmd.set i 0 0 0
    else
      let rgb := h2r hsv.1 hsv.2.1 hsv.2.2
      LedCmd.set i (sc v rgb.1) (sc v rgb.2.1) (sc v rgb.2.2))

/-- The pure content of `rgb_matrix_indicators_user`: inputs are the raw-HID
RGB-control flag, the `disable_layer_led` setting, `biton32(layer_state)`
(the highest active layer), whether `rgb_matrix_get_flags()` equals
`LED_FLAG_NONE`, the ledmap read, and the global brightness; the result is
the returned Bool and the list of LED commands issued. -/
def rgb_matrix_indicators_user_pure (h2r : Nat → Nat → Nat → Nat × Nat × Nat)
    (sc : Nat → Nat → Nat) (lm : List (List (Nat × Nat × Nat))) (v : Nat)
    (rgb_control disable_layer_led : Bool) (highest_layer : Nat)
    (flags_none : Bool) : Bool × List LedCmd :=
  if rgb_control then (false, [])
  else if disable_layer_led then (false, [])
  else if highest_layer = 1 then (true, set_layer_color h2r sc lm v 1)
  else if highest_layer = 2 then (true, set_layer_color h2r sc lm v 2)
  else if flags_none then (true, [LedCmd.setAll 0 0 0])
  else (true, [])

/-- The hook as a state operation: it reads the ledmap in the state, appends
the issued LED commands, and returns the Bool. -/
def rgb_matrix_indicators_user {A : Type} (h2r : Nat → Nat → Nat → Nat × Nat × Nat)
    (sc : Nat → Nat → Nat) (v : Nat) (rgb_control disable_layer_led : Bool)
    (highest_layer : Nat) (flags_none : Bool) (s : SysState A) : Bool × SysState A :=
  let out := rgb_matrix_indicators_user_pure h2r sc s.ledmap v rgb_control
      disable_layer_led highest_layer flags_none
  (out.1, { s with led_cmds := s.led_cmds ++ out.2 })

/-! ### `process_record_user` and `housekeeping_task_user`

`process_achordion` and `achordion_task` live in the achordion library
(`features/achordion.h`), outside this keymap; they are abstracted as
functions on the achordion state `A`. -/

/-- First custom keycode, `RGB_SLD = ML_SAFE_RANGE`.  Its numeric value is
framework-assigned (first free code after the quantum range); the exact value
is immaterial to every property proved here. -/
def RGB_SLD : Nat := 0x7E40

def process_record_user {A : Type} (process_achordion : Nat → Bool → A → Bool × A)
    (keycode : Nat) (pressed : Bool) (s : SysState A) : Bool × SysState A :=
  let pa := process_achordion keycode pressed s.ach
  let s := { s with ach := pa.2 }
  if !pa.1 then (false, s)
  else if keycode = RGB_SLD then
    if pressed then (false, { s with rgblight_mode_val := some 1 })
    else (false, s)
  else (true, s)

def housekeeping_task_user {A : Type} (achordion_task : A → A) (s : SysState A) :
    SysState A :=
  { s with ach := achordion_task s.ach }

/-! ### Achordion streak heuristics -/

def achordion_streak_chord_timeout (tap_hold_keycode next_keycode : Nat) : Nat :=
  if IS_QK_LAYER_TAP tap_hold_keycode then 0
  else
    let mod := mod_config (QK_MOD_TAP_GET_MODS tap_hold_keycode)
    if mod &&& (MOD_LSFT ||| MOD_RSFT) ≠ 0 then 0
    else 240

def achordion_streak_continue (mods keycode : Nat) : Bool :=
  if mods &&& (MOD_MASK_CG ||| MOD_BIT_LALT) ≠ 0 then false
  else
    let keycode := if IS_QK_MOD_TAP keycode then QK_MOD_TAP_GET_TAP_KEYCODE keycode else keycode
    let keycode := if IS_QK_LAYER_TAP keycode then QK_LAYER_TAP_GET_TAP_KEYCODE keycode else keycode
    if KC_A ≤ keycode ∧ keycode ≤ KC_Z then true
    else if keycode = KC_DOT ∨ keycode = KC_COMMA ∨ keycode = KC_QUOTE ∨
        keycode = KC_SPACE ∨ keycode = KC_EXLM ∨ keycode = KC_QUES ∨
        keycode = KC_AT ∨ keycode = KC_DLR then true
    else false

/-! ### Helper lemmas -/

theorem or_eq_zero (x y : Nat) : x ||| y = 0 ↔ x = 0 ∧ y = 0 := by
  constructor
  · intro h
    have hb : ∀ i, x.testBit i = false ∧ y.testBit i = false := by
      intro i
      have := congrArg (fun n => Nat.testBit n i) h
      simp only [Nat.testBit_or, Nat.zero_testBit, Bool.or_eq_false_iff] at this
      exact this
    constructor
    · exact Nat.eq_of_testBit_eq (fun i => by simp [hb i])
    · exact Nat.eq_of_testBit_eq (fun i => by simp [hb i])
  · rintro ⟨rfl, rfl⟩; rfl

theorem register_mem (r : List Nat) (k : Nat) : k ∈ register_code16 r k := by
  unfold register_code16
  split
  · assumption
  · simp

theorem register_of_not_mem (r : List Nat) (k : Nat) (h : k ∉ r) :
    register_code16 r k = r ++ [k] := by
  simp [register_code16, h]

theorem register_idem (r : List Nat) (k : Nat) :
    register_code16 (register_code16 r k) k = register_code16 r k := by
  by_cases hk : k ∈ r <;> simp [register_code16, hk]

theorem unregister_of_not_mem (r : List Nat) (k : Nat) (h : k ∉ r) :
    unregister_code16 r k = r := by
  simp only [unregister_code16]
  rw [List.filter_eq_self]
  exact fun a ha => decide_eq_true (fun he => h (he ▸ ha))

theorem unregister_register (r : List Nat) (k : Nat) (h : k ∉ r) :
    unregister_code16 (register_code16 r k) k = r := by
  rw [register_of_not_mem r k h]
  have ht := unregister_of_not_mem r k h
  simp only [unregister_code16] at ht ⊢
  rw [List.filter_append, ht]
  simp

theorem tap_of_not_mem (r : List Nat) (k : Nat) (h : k ∉ r) :
    tap_code16 r k = r := by
  exact unregister_register r k h

/-- The layer index an entry references, when it is a layer-referencing
action (only `LT` appears in this keymap). -/
def kc_layer_ref : Keycode → Option Nat
  | .LT l _ => some l
  | _ => none

/-- Whether an entry is a tap-dance binding `TD(n)`. -/
def is_td : Keycode → Bool
  | .TD _ => true
  | _ => false

/-! ### Claim theorems -/

/-- C1: the tap-dance step classifier `dance_step` is total on the
framework-supplied state and returns SINGLE_TAP for a single interrupted or
released press, SINGLE_HOLD for a single uninterrupted held press,
DOUBLE_SINGLE_TAP for an interrupted double press, DOUBLE_HOLD for an
uninterrupted held double press, DOUBLE_TAP for an uninterrupted released
double press, MORE_TAPS for every count of 3 or more, and always one of the
six enumerated values. -/
theorem C1_dance_step_classification (s : tap_dance_state_t) :
    (s.count = 1 → (s.interrupted = true ∨ s.pressed = false) →
      dance_step s = SINGLE_TAP) ∧
    (s.count = 1 → s.interrupted = false → s.pressed = true →
      dance_step s = SINGLE_HOLD) ∧
    (s.count = 2 → s.interrupted = true → dance_step s = DOUBLE_SINGLE_TAP) ∧
    (s.count = 2 → s.interrupted = false → s.pressed = true →
      dance_step s = DOUBLE_HOLD) ∧
    (s.count = 2 → s.interrupted = false → s.pressed = false →
      dance_step s = DOUBLE_TAP) ∧
    (3 ≤ s.count → dance_step s = MORE_TAPS) ∧
    (dance_step s = SINGLE_TAP ∨ dance_step s = SINGLE_HOLD ∨
      dance_step s = DOUBLE_TAP ∨ dance_step s = DOUBLE_HOLD ∨
      dance_step s = DOUBLE_SINGLE_TAP ∨ dance_step s = MORE_TAPS) := by
  obtain ⟨c, i, p⟩ := s
  simp only [dance_step]
  cases i <;> cases p <;>
    rcases c with _ | _ | _ | c <;>
      simp [SINGLE_TAP, SINGLE_HOLD, DOUBLE_TAP, DOUBLE_HOLD,
        DOUBLE_SINGLE_TAP, MORE_TAPS]

/-- Witness for C1 at concrete states. -/
theorem C1_dance_step_classification_witness :
    dance_step ⟨1, true, false⟩ = SINGLE_TAP ∧ dance_step ⟨3, false, true⟩ = MORE_TAPS :=
  ⟨(C1_dance_step_classification ⟨1, true, false⟩).1 rfl (Or.inl rfl),
   (C1_dance_step_classification ⟨3, false, true⟩).2.2.2.2.2.1 (by decide)⟩

/-- C2 counterexample: `MT(MOD_RCTL, KC_SCLN)` (keycode 0x3133, present on
layer 0 of this keymap) is a mod-tap whose configured modifiers contain no
Shift (the shift bit 0x02 is clear in both `MOD_LSFT` and `MOD_RSFT` senses),
yet the timeout is 0, not 240: the code masks with
`MOD_LSFT ||| MOD_RSFT = 0x12`, which also catches the right-hand bit 0x10. -/
theorem C2_streak_timeout_counterexample :
    IS_QK_LAYER_TAP 0x3133 = false ∧
    IS_QK_MOD_TAP 0x3133 = true ∧
    QK_MOD_TAP_GET_MODS 0x3133 = MOD_RCTL ∧
    QK_MOD_TAP_GET_MODS 0x3133 &&& 0x02 = 0 ∧
    achordion_streak_chord_timeout 0x3133 KC_A = 0 := by decide

/-- C2 amended: the timeout is 0 for layer-tap keycodes; for mod-tap keycodes
it is 0 exactly when the configured 5-bit modifier field includes the Shift
bit or any right-hand modifier (mask 0x12 = MOD_LSFT ||| MOD_RSFT), and 240
otherwise; the result never depends on `next_keycode`. -/
theorem C2_streak_timeout_amended (tap_hold_keycode next_keycode : Nat) :
    achordion_streak_chord_timeout tap_hold_keycode next_keycode =
      (if IS_QK_LAYER_TAP tap_hold_keycode then 0
       else if mod_config (QK_MOD_TAP_GET_MODS tap_hold_keycode) &&& MOD_LSFT ≠ 0 ∨
           mod_config (QK_MOD_TAP_GET_MODS tap_hold_keycode) &&& 0x10 ≠ 0 then 0
       else 240) ∧
    (∀ n2, achordion_streak_chord_timeout tap_hold_keycode next_keycode =
      achordion_streak_chord_timeout tap_hold_keycode n2) := by
  constructor
  · simp only [achordion_streak_chord_timeout]
    by_cases hl : IS_QK_LAYER_TAP tap_hold_keycode
    · simp [hl]
    · have hsplit : mod_config (QK_MOD_TAP_GET_MODS tap_hold_keycode) &&& (MOD_LSFT ||| MOD_RSFT) ≠ 0 ↔
          (mod_config (QK_MOD_TAP_GET_MODS tap_hold_keycode) &&& MOD_LSFT ≠ 0 ∨
            mod_config (QK_MOD_TAP_GET_MODS tap_hold_keycode) &&& 0x10 ≠ 0) := by
        rw [show (MOD_LSFT ||| MOD_RSFT : Nat) = 0x02 ||| 0x10 by rfl,
          Nat.and_or_distrib_left, MOD_LSFT]
        rw [Ne, or_eq_zero]
        tauto
      by_cases hm : mod_config (QK_MOD_TAP_GET_MODS tap_hold_keycode) &&& (MOD_LSFT ||| MOD_RSFT) ≠ 0
      · rw [if_neg hl, if_pos hm, if_pos (hsplit.mp hm)]
        simp
      · simp [hl, hm, (not_iff_not.mpr hsplit).mp hm]
  · intro n2
    simp [achordion_streak_chord_timeout]

/-- C4: the keymap has exactly three layers (indices 0, 1, 2); the only
layer-referencing actions in the table are `LT(1, KC_ESCAPE)` and
`LT(2, KC_SPACE)`, both on layer 0, and every referenced layer is one of
0, 1, 2. -/
theorem C4_three_layers :
    keymaps.length = 3 ∧
    keymaps.map (fun layer => layer.filter (fun kc => (kc_layer_ref kc).isSome)) =
      [[.LT 1 KC_ESCAPE, .LT 2 KC_SPACE], [], []] ∧
    (keymaps.flatten.filterMap kc_layer_ref).all (fun l => decide (l < 3)) = true := by
  refine ⟨rfl, by decide, by decide⟩

/-- C5: the tap-dance table registers exactly the three callback triplets for
DANCE_0, DANCE_1, DANCE_2, and exactly three keymap positions are bound to
tap dances: `TD(DANCE_0)`, `TD(DANCE_1)`, `TD(DANCE_2)` in order, all on
layer 1. -/
theorem C5_three_tap_dances (A : Type) :
    (tap_dance_actions A).length = 3 ∧
    tap_dance_actions A =
      [⟨on_dance_0, dance_0_finished, dance_0_reset⟩,
       ⟨on_dance_1, dance_1_finished, dance_1_reset⟩,
       ⟨on_dance_2, dance_2_finished, dance_2_reset⟩] ∧
    layer0.filter is_td = [] ∧
    layer1.filter is_td = [.TD 0, .TD 1, .TD 2] ∧
    layer2.filter is_td = [] ∧
    keymaps = [layer0, layer1, layer2] :=
  ⟨rfl, rfl, by decide, by decide, by decide, rfl⟩

/-- C6: there is exactly one combo (`COMBO_COUNT` is 1): its key array is
Q and W (terminated by `COMBO_END`) and its substitute action is Tab. -/
theorem C6_single_combo :
    COMBO_COUNT = 1 ∧
    key_combos.length = COMBO_COUNT ∧
    key_combos = [⟨combo0, KC_TAB⟩] ∧
    combo0.takeWhile (fun k => k != COMBO_END) = [KC_Q, KC_W] := by
  refine ⟨rfl, rfl, rfl, by decide⟩

/-- The four lookup tables of a state, bundled for frame statements. -/
def tables {A : Type} (s : SysState A) :
    List (List Keycode) × List (List (Nat × Nat × Nat)) × List Nat × List combo_t :=
  (s.keymaps, s.ledmap, s.combo0, s.key_combos)

/-- C7: the data model is static lookup tables: every operation of the keymap
(`process_record_user`, the RGB indicator hook, `housekeeping_task_user`, and
all nine tap-dance callbacks) leaves the `keymaps`, `ledmap`, `combo0`, and
`key_combos` tables of the state unchanged, for every achordion library
behaviour; the streak heuristics are pure functions of their arguments and
touch no state at all. -/
theorem C7_tables_are_static (A : Type) (s : SysState A)
    (process_achordion : Nat → Bool → A → Bool × A) (achordion_task : A → A)
    (h2r : Nat → Nat → Nat → Nat × Nat × Nat) (sc : Nat → Nat → Nat)
    (v : Nat) (rc dl : Bool) (hl : Nat) (fl : Bool)
    (keycode : Nat) (pressed : Bool) (st : tap_dance_state_t) :
    tables (process_record_user process_achordion keycode pressed s).2 = tables s ∧
    tables (rgb_matrix_indicators_user h2r sc v rc dl hl fl s).2 = tables s ∧
    tables (housekeeping_task_user achordion_task s) = tables s ∧
    tables (on_dance_0 st s) = tables s ∧
    tables (dance_0_finished st s) = tables s ∧
    tables (dance_0_reset st s) = tables s ∧
    tables (on_dance_1 st s) = tables s ∧
    tables (dance_1_finished st s) = tables s ∧
    tables (dance_1_reset st s) = tables s ∧
    tables (on_dance_2 st s) = tables s ∧
    tables (dance_2_finished st s) = tables s ∧
    tables (dance_2_reset st s) = tables s := by
  refine ⟨?_, rfl, rfl, rfl, rfl, rfl, rfl, rfl, rfl, rfl, rfl, rfl⟩
  unfold process_record_user
  dsimp only
  split
  · rfl
  · split
    · split <;> rfl
    · rfl

/-- C8: for each dance index, a finished/reset cycle is a round trip: the
reset callback always returns the per-dance step to 0, and, provided the
dance's keycodes are not already down, the registered-key report is restored
exactly to its initial value (so nothing the cycle registered stays down). -/
theorem C8_finished_reset_round_trip (A : Type) (s : SysState A)
    (st : tap_dance_state_t) :
    (((dance_0_reset st (dance_0_finished st s)).dance_state 0).step = 0 ∧
      (KC_BSLS ∉ s.registered → KC_PIPE ∉ s.registered →
        (dance_0_reset st (dance_0_finished st s)).registered = s.registered)) ∧
    (((dance_1_reset st (dance_1_finished st s)).dance_state 1).step = 0 ∧
      (KC_QUOTE ∉ s.registered → KC_DQUO ∉ s.registered →
        (dance_1_reset st (dance_1_finished st s)).registered = s.registered)) ∧
    (((dance_2_reset st (dance_2_finished st s)).dance_state 2).step = 0 ∧
      (KC_GRAVE ∉ s.registered → KC_TILD ∉ s.registered →
        (dance_2_reset st (dance_2_finished st s)).registered = s.registered)) := by
  have hstep : dance_step st = 1 ∨ dance_step st = 2 ∨ dance_step st = 3 ∨
      dance_step st = 4 ∨ dance_step st = 5 ∨ dance_step st = 6 := by
    unfold dance_step
    split
    · split <;> simp [SINGLE_TAP, SINGLE_HOLD]
    · split
      · split
        · simp [DOUBLE_SINGLE_TAP]
        · split <;> simp [DOUBLE_TAP, DOUBLE_HOLD]
      · simp [MORE_TAPS]
  refine ⟨⟨?_, ?_⟩, ⟨?_, ?_⟩, ⟨?_, ?_⟩⟩
  · simp [dance_0_reset, dance_0_finished, Function.update_same]
  · intro h1 h2
    simp only [dance_0_reset, dance_0_finished, Function.update_same]
    rcases hstep with h | h | h | h | h | h <;>
      simp [h, dance_0_finished_reg, dance_0_reset_reg,
        SINGLE_TAP, SINGLE_HOLD, DOUBLE_TAP, DOUBLE_HOLD, DOUBLE_SINGLE_TAP,
        register_idem, unregister_register, tap_of_not_mem,
        unregister_of_not_mem, h1, h2]
  · simp [dance_1_reset, dance_1_finished, Function.update_same]
  · intro h1 h2
    simp only [dance_1_reset, dance_1_finished, Function.update_same]
    rcases hstep with h | h | h | h | h | h <;>
      simp [h, dance_1_finished_reg, dance_1_reset_reg,
        SINGLE_TAP, SINGLE_HOLD, DOUBLE_TAP, DOUBLE_HOLD, DOUBLE_SINGLE_TAP,
        register_idem, unregister_register, tap_of_not_mem,
        unregister_of_not_mem, h1, h2]
  · simp [dance_2_reset, dance_2_finished, Function.update_same]
  · intro h1 h2
    simp only [dance_2_reset, dance_2_finished, Function.update_same]
    rcases hstep with h | h | h | h | h | h <;>
      simp [h, dance_2_finished_reg, dance_2_reset_reg,
        SINGLE_TAP, SINGLE_HOLD, DOUBLE_TAP, DOUBLE_HOLD, DOUBLE_SINGLE_TAP,
        register_idem, unregister_register, tap_of_not_mem,
        unregister_of_not_mem, h1, h2]

/-- The initial state: tables as declared, zero-initialized dance state,
nothing registered, no LED commands issued. -/
def init_state : SysState Unit :=
  { keymaps := keymaps, ledmap := ledmap, combo0 := combo0,
    key_combos := key_combos, dance_state := fun _ => ⟨false, 0⟩,
    registered := [], led_cmds := [], rgblight_mode_val := none, ach := () }

/-- Witness for C8 at the initial state and a double-tap input. -/
theorem C8_finished_reset_round_trip_witness :
    (dance_0_reset ⟨2, false, false⟩ (dance_0_finished ⟨2, false, false⟩ init_state)).registered
      = init_state.registered :=
  (C8_finished_reset_round_trip Unit init_state ⟨2, false, false⟩).1.2
    (by decide) (by decide)

/-- The tap keycode the streak heuristic extracts: mod-tap and layer-tap
keycodes are unwrapped to their low-byte tap keycode. -/
def tap_component (kc : Nat) : Nat :=
  if IS_QK_MOD_TAP kc then QK_MOD_TAP_GET_TAP_KEYCODE kc
  else if IS_QK_LAYER_TAP kc then QK_LAYER_TAP_GET_TAP_KEYCODE kc
  else kc

/-- The letter-or-punctuation test at the end of the streak heuristic,
characterized as a proposition. -/
theorem streak_tail_iff (t : Nat) :
    ((if KC_A ≤ t ∧ t ≤ KC_Z then true
      else if t = KC_DOT ∨ t = KC_COMMA ∨ t = KC_QUOTE ∨ t = KC_SPACE ∨
          t = KC_EXLM ∨ t = KC_QUES ∨ t = KC_AT ∨ t = KC_DLR then true
      else false) = true) ↔
      ((KC_A ≤ t ∧ t ≤ KC_Z) ∨
        t ∈ [KC_DOT, KC_COMMA, KC_QUOTE, KC_SPACE, KC_EXLM, KC_QUES, KC_AT, KC_DLR]) := by
  by_cases h1 : KC_A ≤ t ∧ t ≤ KC_Z
  · simp [h1]
  · rw [if_neg h1]
    by_cases h2 : t = KC_DOT ∨ t = KC_COMMA ∨ t = KC_QUOTE ∨ t = KC_SPACE ∨
        t = KC_EXLM ∨ t = KC_QUES ∨ t = KC_AT ∨ t = KC_DLR
    · rw [if_pos h2]
      simp only [true_iff]
      exact Or.inr (by simpa using h2)
    · rw [if_neg h2]
      simp only [Bool.false_eq_true, false_iff]
      rintro (hc | hc)
      · exact h1 hc
      · exact h2 (by simpa using hc)

/-- When no excluded modifier is held, the streak heuristic reduces to the
letter-or-punctuation test on the unwrapped tap component. -/
theorem streak_body (mods kc : Nat)
    (hm : ¬ (mods &&& (MOD_MASK_CG ||| MOD_BIT_LALT) ≠ 0)) :
    achordion_streak_continue mods kc =
      (if KC_A ≤ tap_component kc ∧ tap_component kc ≤ KC_Z then true
       else if tap_component kc = KC_DOT ∨ tap_component kc = KC_COMMA ∨
          tap_component kc = KC_QUOTE ∨ tap_component kc = KC_SPACE ∨
          tap_component kc = KC_EXLM ∨ tap_component kc = KC_QUES ∨
          tap_component kc = KC_AT ∨ tap_component kc = KC_DLR then true
       else false) := by
  unfold achordion_streak_continue tap_component
  rw [if_neg hm]
  by_cases hmt : IS_QK_MOD_TAP kc
  · have hle : QK_MOD_TAP_GET_TAP_KEYCODE kc ≤ 0xFF := Nat.and_le_right
    have hnl : IS_QK_LAYER_TAP (QK_MOD_TAP_GET_TAP_KEYCODE kc) = false := by
      unfold IS_QK_LAYER_TAP QK_LAYER_TAP QK_LAYER_TAP_MAX
      simp only [Bool.and_eq_false_iff, decide_eq_false_iff_not, not_le]
      left
      omega
    simp [hmt, hnl]
  · by_cases hlt : IS_QK_LAYER_TAP kc
    · simp [hmt, hlt]
    · simp [hmt, hlt]

/-- C9: `achordion_streak_continue` returns true exactly when no modifier
other than Shift or right Alt is held (no Ctrl, no GUI, no left Alt: the
real-modifier bits 0x01, 0x04, 0x08, 0x10, 0x80 are all clear) and the
keycode's tap component is a letter KC_A..KC_Z or one of period, comma,
quote, space, exclamation, question, at, dollar. -/
theorem C9_streak_continue_iff (mods keycode : Nat) :
    achordion_streak_continue mods keycode = true ↔
      ((mods &&& 0x01 = 0 ∧ mods &&& 0x04 = 0 ∧ mods &&& 0x08 = 0 ∧
          mods &&& 0x10 = 0 ∧ mods &&& 0x80 = 0) ∧
        ((KC_A ≤ tap_component keycode ∧ tap_component keycode ≤ KC_Z) ∨
          tap_component keycode ∈ [KC_DOT, KC_COMMA, KC_QUOTE, KC_SPACE,
            KC_EXLM, KC_QUES, KC_AT, KC_DLR])) := by
  have hmask : mods &&& (MOD_MASK_CG ||| MOD_BIT_LALT) = 0 ↔
      (mods &&& 0x01 = 0 ∧ mods &&& 0x04 = 0 ∧ mods &&& 0x08 = 0 ∧
        mods &&& 0x10 = 0 ∧ mods &&& 0x80 = 0) := by
    rw [show (MOD_MASK_CG ||| MOD_BIT_LALT : Nat) =
      0x01 ||| (0x04 ||| (0x08 ||| (0x10 ||| 0x80))) by rfl]
    simp only [Nat.and_or_distrib_left, or_eq_zero]
  by_cases hm0 : mods &&& (MOD_MASK_CG ||| MOD_BIT_LALT) = 0
  · rw [streak_body mods keycode (not_not_intro hm0), streak_tail_iff]
    simp [hmask.mp hm0]
  · have hfalse : achordion_streak_continue mods keycode = false := by
      unfold achordion_streak_continue
      rw [if_pos hm0]
    rw [hfalse]
    simp only [Bool.false_eq_true, false_iff, not_and]
    intro hc
    exact absurd (hmask.mpr hc) hm0

/-- C3: with raw-HID RGB control inactive and the layer-LED setting enabled,
whenever the highest active layer is 1 or 2 the indicator hook overrides
every one of the 52 LEDs from the `ledmap` row of that layer: an all-zero
HSV triple gives black, any other triple gives its HSV-to-RGB conversion
scaled by the global matrix brightness; and the hook returns true. -/
theorem C3_layer_color_override (h2r : Nat → Nat → Nat → Nat × Nat × Nat)
    (sc : Nat → Nat → Nat) (v : Nat) (highest_layer : Nat) (flags_none : Bool)
    (hhl : highest_layer = 1 ∨ highest_layer = 2) :
    (rgb_matrix_indicators_user_pure h2r sc ledmap v false false
        highest_layer flags_none).1 = true ∧
    (rgb_matrix_indicators_user_pure h2r sc ledmap v false false
        highest_layer flags_none).2.length = RGB_MATRIX_LED_COUNT ∧
    ∀ i, i < RGB_MATRIX_LED_COUNT →
      (rgb_matrix_indicators_user_pure h2r sc ledmap v false false
          highest_layer flags_none).2.getD i (LedCmd.setAll 1 1 1) =
        (if ledmap_at highest_layer i = (0, 0, 0) then LedCmd.set i 0 0 0
         else LedCmd.set i
           (sc v (h2r (ledmap_at highest_layer i).1 (ledmap_at highest_layer i).2.1
             (ledmap_at highest_layer i).2.2).1)
           (sc v (h2r (ledmap_at highest_layer i).1 (ledmap_at highest_layer i).2.1
             (ledmap_at highest_layer i).2.2).2.1)
           (sc v (h2r (ledmap_at highest_layer i).1 (ledmap_at highest_layer i).2.1
             (ledmap_at highest_layer i).2.2).2.2)) := by
  have main : ∀ layer i, i < RGB_MATRIX_LED_COUNT →
      (set_layer_color h2r sc ledmap v layer).getD i (LedCmd.setAll 1 1 1) =
        (if ledmap_at layer i = (0, 0, 0) then LedCmd.set i 0 0 0
         else LedCmd.set i
           (sc v (h2r (ledmap_at layer i).1 (ledmap_at layer i).2.1
             (ledmap_at layer i).2.2).1)
           (sc v (h2r (ledmap_at layer i).1 (ledmap_at layer i).2.1
             (ledmap_at layer i).2.2).2.1)
           (sc v (h2r (ledmap_at layer i).1 (ledmap_at layer i).2.1
             (ledmap_at layer i).2.2).2.2)) := by
    intro layer i hi
    rw [set_layer_color, List.getD_eq_getElem?_getD, List.getElem?_map,
      List.getElem?_range hi]
    simp only [Option.map_some', Option.getD_some, ledmap_at]
    by_cases hz : lm_at ledmap layer i = (0, 0, 0)
    · rw [if_pos hz, if_pos]
      rw [hz]
      exact ⟨rfl, rfl, rfl⟩
    · rw [if_neg hz, if_neg]
      intro hc
      apply hz
      obtain ⟨h1, h2, h3⟩ := hc
      simp [Prod.ext_iff, h1, h2, h3]
  have hlen : ∀ layer, (set_layer_color h2r sc ledmap v layer).length =
      RGB_MATRIX_LED_COUNT := by
    intro layer
    rw [set_layer_color, List.length_map, List.length_range]
  rcases hhl with h | h <;> subst h
  · exact ⟨rfl, hlen 1, main 1⟩
  · exact ⟨rfl, hlen 2, main 2⟩

/-- Witness for C3 at layer 1 with identity conversion and scaling. -/
theorem C3_layer_color_override_witness :
    (rgb_matrix_indicators_user_pure (fun a b c => (a, b, c)) (fun _ x => x)
      ledmap 0 false false 1 false).1 = true :=
  (C3_layer_color_override (fun a b c => (a, b, c)) (fun _ x => x) 0 1 false
    (Or.inl rfl)).1

/-- C10: the indicator hook returns false and issues no LED command when
raw-HID RGB control is active or the disable-layer-LED setting is on; when
the highest layer is neither 1 nor 2 it issues no per-LED command, setting
all LEDs to black exactly when the RGB matrix flags equal LED_FLAG_NONE, and
returns true. -/
theorem C10_indicator_frame (h2r : Nat → Nat → Nat → Nat × Nat × Nat)
    (sc : Nat → Nat → Nat) (lm : List (List (Nat × Nat × Nat))) (v : Nat) :
    (∀ dl hl fl, rgb_matrix_indicators_user_pure h2r sc lm v true dl hl fl =
      (false, [])) ∧
    (∀ hl fl, rgb_matrix_indicators_user_pure h2r sc lm v false true hl fl =
      (false, [])) ∧
    (∀ hl, hl ≠ 1 → hl ≠ 2 →
      rgb_matrix_indicators_user_pure h2r sc lm v false false hl true =
        (true, [LedCmd.setAll 0 0 0])) ∧
    (∀ hl, hl ≠ 1 → hl ≠ 2 →
      rgb_matrix_indicators_user_pure h2r sc lm v false false hl false =
        (true, [])) := by
  refine ⟨fun dl hl fl => rfl, fun hl fl => rfl, ?_, ?_⟩ <;>
    intro hl h1 h2 <;>
      simp [rgb_matrix_indicators_user_pure, h1, h2]

/-- Witness for C10 in the default branch with flags equal to LED_FLAG_NONE. -/
theorem C10_indicator_frame_witness :
    rgb_matrix_indicators_user_pure (fun a b c => (a, b, c)) (fun _ x => x)
      ledmap 0 false false 0 true = (true, [LedCmd.setAll 0 0 0]) :=
  (C10_indicator_frame (fun a b c => (a, b, c)) (fun _ x => x) ledmap 0).2.2.1
    0 (by decide) (by decide)

end Voyager
